import Mathlib

/-!
Verification development for the chat-driven task manager frontend.

The definitions below are a shallow embedding of the command-interpretation
and request-lifecycle layer of the application:

* `src/frontend/src/app/components/ChatComponent.tsx`
  (`detectTaskOperation`, `detectTaskIntent`, `resolveTaskId`, `deleteTask`,
  `toggleTaskCompletion`, the inline update branch, `handleSendMessage`), and
* `src/frontend/src/lib/chatApi.ts` together with `src/frontend/src/lib/api.ts`
  (the `sendMessage` single-flight logic and its abort/timeout handling).

Modelling conventions:

* Strings are Lean `String`s; the JavaScript string operations used by the
  code (`toLowerCase`, `trim`, `charAt(0).toUpperCase()`, `\s`, `\d`,
  case-insensitive matching) are modelled with `Char.toLower`, `jsTrim`,
  `Char.toUpper`, `Char.isWhitespace` and `Char.isDigit`.  These agree with
  the JavaScript operations on ASCII text, which is the alphabet of every
  pattern literal in the source.
* JavaScript numbers produced by `parseInt` are modelled as exact integers
  (`Int`); this is faithful for all values below 2^53.
* Each regular expression of the source is compiled by hand into a
  backtracking recogniser over `List Char` (greedy quantifiers, ordered
  alternation, anchored where the source pattern is anchored), so the
  captured groups coincide with the JavaScript `RegExp.exec` captures.
* Asynchronous store calls are represented by an explicit parameter carrying
  the store's behaviour (resolve with a value, resolve with `null`, reject),
  and the interleaving of `chatApi.sendMessage` calls is represented by
  splitting the function at its unique suspension point (the network call)
  into a synchronous prefix and a settlement step over an explicit state.
-/

namespace TodoChat

/-! ## Data model (ChatComponent.tsx lines 7-22) -/

/-- A transcript message sender (`'user' | 'assistant'`). -/
inductive Sender where
  | user
  | assistant
deriving DecidableEq, Repr

/-- A transcript entry.  The source `Message` also carries an `id` derived
from `Date.now()` and a `timestamp`; both are environment-supplied values
that no claim depends on, so they are elided here. -/
structure ChatMsg where
  sender : Sender
  text : String
deriving DecidableEq, Repr

/-- A task as held in the component state (ChatComponent.tsx lines 14-22). -/
structure Task where
  id : String
  title : String
  description : String
  completed : Bool
  created_at : String
  updated_at : String
  user_id : String
deriving DecidableEq, Repr

/-! ## JavaScript string primitives

`String.toLower`, `String.trim` and `String.map` from the Lean library are
defined by well-founded recursion over byte positions, which the kernel
cannot evaluate; the structurally recursive versions below compute the same
strings and keep every definition executable by `decide`. -/

/-- `s.toLowerCase()`: lower-case every character. -/
def jsToLower (s : String) : String :=
  String.mk (s.toList.map Char.toLower)

/-- `s.trim()`: drop leading and trailing whitespace. -/
def jsTrim (s : String) : String :=
  String.mk (((s.toList.dropWhile Char.isWhitespace).reverse.dropWhile
    Char.isWhitespace).reverse)

/-! ## JavaScript `parseInt` (used by `resolveTaskId`, line 251) -/

/-- Decimal value of a digit list (most significant first). -/
def digitsVal (ds : List Char) : Nat :=
  ds.foldl (fun a c => 10 * a + (c.toNat - 48)) 0

/-- Hexadecimal digit (either case), as in the character class `[0-9a-f]`
under the `i` flag. -/
def isHexDigitCI (c : Char) : Bool :=
  c.isDigit || ('a' ≤ c.toLower && c.toLower ≤ 'f')

/-- Hexadecimal value of a hex-digit list (most significant first). -/
def hexVal (ds : List Char) : Nat :=
  ds.foldl (fun a c => 16 * a + (if c.isDigit then c.toNat - 48 else c.toLower.toNat - 87)) 0

/-- Does the string start with the hexadecimal prefix `0x`/`0X` that
`parseInt` recognises when no radix is given? -/
def looksHex : List Char → Bool
  | c0 :: c1 :: _ => c0 = '0' && (c1 = 'x' || c1 = 'X')
  | _ => false

/-- Magnitude part of `parseInt(s)` with no radix argument: a `0x`-prefixed
hexadecimal digit run, or else the longest decimal digit prefix; `none` is
JavaScript's `NaN`. -/
def jsParseIntMag (cs : List Char) : Option Nat :=
  if looksHex cs then
    let ds := (cs.drop 2).takeWhile isHexDigitCI
    if ds = [] then none else some (hexVal ds)
  else
    let ds := cs.takeWhile Char.isDigit
    if ds = [] then none else some (digitsVal ds)

/-- Sign handling of `parseInt`. -/
def jsParseIntSigned (cs : List Char) : Option Int :=
  match cs with
  | [] => none
  | c :: rest =>
    if c = '-' then (jsParseIntMag rest).map (fun n => -(n : Int))
    else if c = '+' then (jsParseIntMag rest).map (fun n => (n : Int))
    else (jsParseIntMag (c :: rest)).map (fun n => (n : Int))

/-- `parseInt(s)` with no radix: skip leading whitespace, optional sign,
then the longest digit run; `none` models `NaN`.  JavaScript numbers are
modelled as exact integers. -/
def jsParseInt (s : String) : Option Int :=
  jsParseIntSigned (s.toList.dropWhile Char.isWhitespace)

/-! ## The UUID regex of `resolveTaskId` (ChatComponent.tsx line 245)

`/^[0-9a-f]{8}-[0-9a-f]{4}-[0-9a-f]{4}-[0-9a-f]{4}-[0-9a-f]{12}$/i` -/

/-- Consume exactly `n` hexadecimal digits. -/
def hexRun : Nat → List Char → Option (List Char)
  | 0, cs => some cs
  | _ + 1, [] => none
  | n + 1, c :: cs => if isHexDigitCI c then hexRun n cs else none

/-- Consume a literal dash. -/
def dashThen : List Char → Option (List Char)
  | c :: cs => if c = '-' then some cs else none
  | [] => none

/-- The anchored 8-4-4-4-12 UUID shape. -/
def uuidCheck (cs : List Char) : Bool :=
  match (((((((((hexRun 8 cs).bind dashThen).bind (hexRun 4)).bind dashThen).bind
      (hexRun 4)).bind dashThen).bind (hexRun 4)).bind dashThen).bind (hexRun 12)) with
  | some [] => true
  | _ => false

/-- `uuidRegex.test(taskId)` of `resolveTaskId`. -/
def isUuid (s : String) : Bool :=
  uuidCheck s.toList

/-! ## `resolveTaskId` (ChatComponent.tsx lines 243-261) -/

/-- `resolveTaskId(taskId)`: a UUID-shaped reference is returned unchanged
without consulting the task list; otherwise the reference is parsed with
`parseInt` and, when positive, used as a 1-based index into `tasks`;
`none` models the `null` return. -/
def resolveTaskId (taskId : String) (tasks : List Task) : Option String :=
  if isUuid taskId then
    some taskId
  else
    match jsParseInt taskId with
    | some k => if 0 < k then (tasks.get? (k.toNat - 1)).map Task.id else none
    | none => none

def taskNo (n : Nat) : Task :=
  { id := "id" ++ toString n, title := "Task " ++ toString n, description := ""
    completed := false, created_at := "", updated_at := "", user_id := "u" }

def tasksABC : List Task :=
  [{ taskNo 1 with id := "a" }, { taskNo 2 with id := "b" }, { taskNo 3 with id := "c" }]

/-! ## Regular-expression combinators

Each pattern of `detectTaskOperation` / `detectTaskIntent` is compiled into a
continuation-passing recogniser over `List Char`.  A combinator receives the
remaining input and a continuation; alternatives and quantifier lengths are
tried in the JavaScript order (ordered alternation, greedy quantifiers with
backtracking), so the first overall success equals the JavaScript match. -/

/-- Characters matched by `.` in a JavaScript regex without the `s` flag:
anything but a line terminator. -/
def isDotChar (c : Char) : Bool :=
  !(c = '\n' || c = '\r' || c = '\u2028' || c = '\u2029')

/-- Consume a literal, comparing case-insensitively (`i` flag); the literal
is given in lower case. -/
def stripLitCI : List Char → List Char → Option (List Char)
  | [], cs => some cs
  | _ :: _, [] => none
  | p :: ps, c :: cs => if c.toLower = p then stripLitCI ps cs else none

/-- Consume a literal, comparing case-sensitively (no `i` flag). -/
def stripLitCS : List Char → List Char → Option (List Char)
  | [], cs => some cs
  | _ :: _, [] => none
  | p :: ps, c :: cs => if c = p then stripLitCS ps cs else none

/-- Literal followed by continuation. -/
def litK (lit : String) (cs : List Char) (k : List Char → Option α) : Option α :=
  (stripLitCI lit.toList cs).bind k

/-- Ordered alternation of literals `(?:a|b|...)` followed by continuation;
an alternative is kept only if the continuation also succeeds. -/
def altK (alts : List String) (cs : List Char) (k : List Char → Option α) : Option α :=
  alts.findSome? (fun a => litK a cs k)

/-- All ways to split off a prefix of characters satisfying `p`, from the
greedy (longest) split down to a minimum of `lo` consumed characters. -/
def munchSplits (p : Char → Bool) (lo : Nat) (cs : List Char) : List (List Char × List Char) :=
  let maxN := (cs.takeWhile p).length
  ((List.range (maxN + 1)).reverse.filter (fun i => lo ≤ i)).map
    (fun i => (cs.take i, cs.drop i))

/-- `\s+` followed by continuation (greedy, with backtracking). -/
def wsPlusK (cs : List Char) (k : List Char → Option α) : Option α :=
  (munchSplits Char.isWhitespace 1 cs).findSome? (fun pr => k pr.2)

/-- `\s*` followed by continuation (greedy, with backtracking). -/
def wsStarK (cs : List Char) (k : List Char → Option α) : Option α :=
  (munchSplits Char.isWhitespace 0 cs).findSome? (fun pr => k pr.2)

/-- A capturing `(class+)` followed by continuation; the continuation also
receives the captured text (greedy, with backtracking). -/
def classPlusK (p : Char → Bool) (cs : List Char) (k : String → List Char → Option α) :
    Option α :=
  (munchSplits p 1 cs).findSome? (fun pr => k (String.mk pr.1) pr.2)

/-- A greedy optional group `(?:...)?`: try the body (with the continuation),
then the empty alternative. -/
def optK (body : List Char → (List Char → Option α) → Option α) (cs : List Char)
    (k : List Char → Option α) : Option α :=
  (body cs k).orElse (fun _ => k cs)

/-- `.*` followed by a literal, then continuation (greedy, backtracking). -/
def dotStarThenLitK (lit : String) (cs : List Char) (k : List Char → Option α) : Option α :=
  (munchSplits isDotChar 0 cs).findSome? (fun pr => litK lit pr.2 k)

/-- The anchored tail `(.+)$`: capture the whole remainder, which must be
non-empty and free of line terminators. -/
def capRestEnd (cs : List Char) : Option String :=
  if cs ≠ [] ∧ cs.all isDotChar then some (String.mk cs) else none

/-- An end-of-pattern `(.+)` with nothing after it (no `$`): the greedy
capture is the maximal run of `.`-characters, which must be non-empty. -/
def capDotRun (cs : List Char) : Option String :=
  let run := cs.takeWhile isDotChar
  if run = [] then none else some (String.mk run)

/-! ## The intent patterns (ChatComponent.tsx lines 151-240)

`test` is run on `lowerInput = userInput.toLowerCase().trim()` and `exec` on
the original `userInput`; both use the same anchored pattern, so both are
modelled by one recogniser applied to the two strings. -/

/-- `createPattern =
`/^(?:add|create|make|new)\s+(?:a\s+)?(?:task|todo|to-do)\s+(?:to|called|named|about|regarding)?\s*(.+)$/i`;
returns the capture. -/
def execCreate (s : String) : Option String :=
  altK ["add", "create", "make", "new"] s.toList fun r1 =>
  wsPlusK r1 fun r2 =>
  optK (fun c k => litK "a" c fun r => wsPlusK r k) r2 fun r3 =>
  altK ["task", "todo", "to-do"] r3 fun r4 =>
  wsPlusK r4 fun r5 =>
  optK (fun c k => altK ["to", "called", "named", "about", "regarding"] c k) r5 fun r6 =>
  wsStarK r6 fun r7 =>
  capRestEnd r7

/-- The capture group `(\d+|[a-fA-F0-9\-]+)` shared by the delete, complete
and update patterns. -/
def idCapK (cs : List Char) (k : String → List Char → Option α) : Option α :=
  (classPlusK Char.isDigit cs k).orElse
    (fun _ => classPlusK (fun c => isHexDigitCI c || c = '-') cs k)

/-- The shared anchored tail `(?:\s+(.+))?$` of the delete and complete
patterns; returns the optional second capture. -/
def descTailEnd (cs : List Char) : Option (Option String) :=
  ((wsPlusK cs fun r => (capRestEnd r).map some)).orElse
    (fun _ => if cs = [] then some none else none)

/-- `deletePattern = /^(?:delete|remove|del)\s+(?:task\s+)?(\d+|[a-fA-F0-9\-]+)(?:\s+(.+))?$/i`;
returns the reference capture and the optional trailing capture. -/
def execDelete (s : String) : Option (String × Option String) :=
  altK ["delete", "remove", "del"] s.toList fun r1 =>
  wsPlusK r1 fun r2 =>
  optK (fun c k => litK "task" c fun r => wsPlusK r k) r2 fun r3 =>
  idCapK r3 fun tid r4 =>
  (descTailEnd r4).map (fun g2 => (tid, g2))

/-- `completePattern = /^(?:complete|finish|done|mark.*complete)\s+(?:task\s+)?(\d+|[a-fA-F0-9\-]+)(?:\s+(.+))?$/i`. -/
def execComplete (s : String) : Option (String × Option String) :=
  (fun (k : List Char → Option (String × Option String)) =>
    ((litK "complete" s.toList k).orElse fun _ =>
     (litK "finish" s.toList k).orElse fun _ =>
     (litK "done" s.toList k).orElse fun _ =>
     litK "mark" s.toList fun r => dotStarThenLitK "complete" r k))
  (fun r1 =>
    wsPlusK r1 fun r2 =>
    optK (fun c k => litK "task" c fun r => wsPlusK r k) r2 fun r3 =>
    idCapK r3 fun tid r4 =>
    (descTailEnd r4).map (fun g2 => (tid, g2)))

/-- `listPattern = /^(?:list|show|display|get)\s+(?:all\s+)?(?:my\s+)?(?:tasks|task)/i`
(not anchored at the end, and only `test` is used). -/
def testList (s : String) : Bool :=
  (altK ["list", "show", "display", "get"] s.toList fun r1 =>
   wsPlusK r1 fun r2 =>
   optK (fun c k => litK "all" c fun r => wsPlusK r k) r2 fun r3 =>
   optK (fun c k => litK "my" c fun r => wsPlusK r k) r3 fun r4 =>
   altK ["tasks", "task"] r4 fun _ => some ()).isSome

/-- `summaryPattern = /^(?:summarize|summary|stats|statistics|overview|report)\s+(?:of\s+)?(?:my\s+)?(?:tasks|task)/i`
(not anchored at the end, and only `test` is used). -/
def testSummary (s : String) : Bool :=
  (altK ["summarize", "summary", "stats", "statistics", "overview", "report"] s.toList fun r1 =>
   wsPlusK r1 fun r2 =>
   optK (fun c k => litK "of" c fun r => wsPlusK r k) r2 fun r3 =>
   optK (fun c k => litK "my" c fun r => wsPlusK r k) r3 fun r4 =>
   altK ["tasks", "task"] r4 fun _ => some ()).isSome

/-- `updatePattern = /^(?:update|change|modify|edit)\s+(?:task\s+)?(\d+|[a-fA-F0-9\-]+)\s+(?:to|with|as)\s+(.+)$/i`. -/
def execUpdate (s : String) : Option (String × String) :=
  altK ["update", "change", "modify", "edit"] s.toList fun r1 =>
  wsPlusK r1 fun r2 =>
  optK (fun c k => litK "task" c fun r => wsPlusK r k) r2 fun r3 =>
  idCapK r3 fun tid r4 =>
  wsPlusK r4 fun r5 =>
  altK ["to", "with", "as"] r5 fun r6 =>
  wsPlusK r6 fun r7 =>
  (capRestEnd r7).map (fun t => (tid, t))

/-! ## Title extraction (ChatComponent.tsx lines 165-169 and 67-74) -/

/-- `title.replace(/^(?:to|for|about|regarding)\s+/, '')`: the replace
pattern has no `i` flag, so matching is case-sensitive. -/
def stripFiller (cs : List Char) : List Char :=
  match ["to", "for", "about", "regarding"].findSome? (fun a =>
      (stripLitCS a.toList cs).bind (fun r =>
        if (r.takeWhile Char.isWhitespace) = [] then none
        else some (r.dropWhile Char.isWhitespace))) with
  | some r => r
  | none => cs

/-- The title cleanup shared by `detectTaskOperation` (lines 165-169) and
`detectTaskIntent` (lines 67-74), up to but not including the
capitalization: trim, truncate at the first `'.'`, trim, strip a leading
filler preposition. -/
def mkStrippedTitle (cap : String) : String :=
  let t := jsTrim cap
  let t := String.mk (t.toList.takeWhile (fun c => c ≠ '.'))
  let t := jsTrim t
  String.mk (stripFiller t.toList)

/-- `title.charAt(0).toUpperCase() + title.slice(1)`. -/
def capitalizeFirst (t : String) : String :=
  match t.toList with
  | [] => ""
  | c :: rest => String.mk (c.toUpper :: rest)

/-- The title stored in a `create` operation (line 174). -/
def mkCreateTitle (cap : String) : String :=
  capitalizeFirst (mkStrippedTitle cap)

/-- A string whose first character is fixed by `toUpperCase` (vacuously true
when empty). -/
def isCapitalized (s : String) : Bool :=
  match s.toList with
  | [] => true
  | c :: _ => c.toUpper = c

/-! ## `detectTaskOperation` (ChatComponent.tsx lines 151-240) -/

/-- Result of `detectTaskOperation`; `unknown` models
`{ isTaskOperation: false }`. -/
inductive TaskOp where
  | create (title : String)
  | delete (taskId : String) (description : String)
  | complete (taskId : String) (description : String)
  | list
  | summary
  | update (taskId : String) (title : String)
  | unknown
deriving DecidableEq, Repr

/-- `match[2]?.trim() || ''` of the delete and complete branches. -/
def jsOptTrim (g : Option String) : String :=
  (g.map jsTrim).getD ""

/-- `detectTaskOperation(userInput)`: each branch tests its pattern against
`lowerInput` and, on success, runs `exec` on the original `userInput`; a
branch whose `exec` (or capture check) fails falls through to the next
pattern, and the final fallback is `unknown` (lines 151-240 verbatim). -/
def detectTaskOperation (userInput : String) : TaskOp :=
  let lowerInput := jsTrim (jsToLower userInput)
  match (if (execCreate lowerInput).isSome then execCreate userInput else none) with
  | some cap => TaskOp.create (mkCreateTitle cap)
  | none =>
  match (if (execDelete lowerInput).isSome then execDelete userInput else none) with
  | some (tid, g2) => TaskOp.delete tid (jsOptTrim g2)
  | none =>
  match (if (execComplete lowerInput).isSome then execComplete userInput else none) with
  | some (tid, g2) => TaskOp.complete tid (jsOptTrim g2)
  | none =>
  if testList lowerInput then TaskOp.list
  else if testSummary lowerInput then TaskOp.summary
  else
  match (if (execUpdate lowerInput).isSome then execUpdate userInput else none) with
  | some (tid, t) => TaskOp.update tid (jsTrim t)
  | none => TaskOp.unknown

/-! ## The classification policy stated by the specification (§4.1):
an ordered list of pattern matchers, first match wins, `unknown` default. -/

/-- The create branch as a standalone matcher. -/
def matchCreate (u : String) : Option TaskOp :=
  if (execCreate (jsTrim (jsToLower u))).isSome then
    (execCreate u).map (fun cap => TaskOp.create (mkCreateTitle cap))
  else none

/-- The delete branch as a standalone matcher. -/
def matchDelete (u : String) : Option TaskOp :=
  if (execDelete (jsTrim (jsToLower u))).isSome then
    (execDelete u).map (fun p => TaskOp.delete p.1 (jsOptTrim p.2))
  else none

/-- The complete branch as a standalone matcher. -/
def matchComplete (u : String) : Option TaskOp :=
  if (execComplete (jsTrim (jsToLower u))).isSome then
    (execComplete u).map (fun p => TaskOp.complete p.1 (jsOptTrim p.2))
  else none

/-- The list branch as a standalone matcher. -/
def matchList (u : String) : Option TaskOp :=
  if testList (jsTrim (jsToLower u)) then some TaskOp.list else none

/-- The summary branch as a standalone matcher. -/
def matchSummary (u : String) : Option TaskOp :=
  if testSummary (jsTrim (jsToLower u)) then some TaskOp.summary else none

/-- The update branch as a standalone matcher. -/
def matchUpdate (u : String) : Option TaskOp :=
  if (execUpdate (jsTrim (jsToLower u))).isSome then
    (execUpdate u).map (fun p => TaskOp.update p.1 (jsTrim p.2))
  else none

/-- The fixed priority order of §4.1. -/
def intentMatchers : List (String → Option TaskOp) :=
  [matchCreate, matchDelete, matchComplete, matchList, matchSummary, matchUpdate]

/-- Ordered, first-match-wins classification with `unknown` as the default;
this is the specification's description of `detectTaskOperation`. -/
def classifyOrdered (u : String) : TaskOp :=
  (intentMatchers.findSome? (fun f => f u)).getD TaskOp.unknown

/-! ## `detectTaskIntent` (ChatComponent.tsx lines 47-98)

Run on an assistant response.  `addTaskPattern` and `taskPattern` are not
anchored, so `exec` finds the leftmost position at which a match starts;
this is modelled by trying the anchored recogniser on every suffix, leftmost
first. -/

/-- `addTaskPattern = /(?:add|create|make|new)\s+(?:a\s+)?(?:task|todo|to-do)\s+(?:to|called|named|about|regarding)?\s*(.+)/i`
(unanchored): capture of the leftmost match. -/
def addTaskIntentExec (s : String) : Option String :=
  s.toList.tails.findSome? fun cs =>
    altK ["add", "create", "make", "new"] cs fun r1 =>
    wsPlusK r1 fun r2 =>
    optK (fun c k => litK "a" c fun r => wsPlusK r k) r2 fun r3 =>
    altK ["task", "todo", "to-do"] r3 fun r4 =>
    wsPlusK r4 fun r5 =>
    optK (fun c k => altK ["to", "called", "named", "about", "regarding"] c k) r5 fun r6 =>
    wsStarK r6 fun r7 =>
    capDotRun r7

/-- `taskPattern = /(?:task|todo|to-do):\s*(.+)/i` (unanchored). -/
def taskColonIntentExec (s : String) : Option String :=
  s.toList.tails.findSome? fun cs =>
    altK ["task", "todo", "to-do"] cs fun r1 =>
    litK ":" r1 fun r2 =>
    wsStarK r2 fun r3 =>
    capDotRun r3

/-- `deletePattern = /(?:deleted|removed|completed|marked as done|buy|bye)\s+.*/i`
(unanchored, only tested). -/
def deleteIntentTest (s : String) : Bool :=
  (s.toList.tails.findSome? fun cs =>
    altK ["deleted", "removed", "completed", "marked as done", "buy", "bye"] cs fun r =>
    wsPlusK r fun _ => some ()).isSome

/-- Result of `detectTaskIntent`; `noIntent` models `{ isTaskIntent: false }`.
The `description` field of both intents is the full response text. -/
inductive TaskIntent where
  | createIntent (title : String) (description : String)
  | deleteIntent (description : String)
  | noIntent
deriving DecidableEq, Repr

/-- The delete-keyword fallback of `detectTaskIntent` (lines 87-95). -/
def intentDeleteCheck (text : String) : TaskIntent :=
  if deleteIntentTest text then TaskIntent.deleteIntent text else TaskIntent.noIntent

/-- `detectTaskIntent(responseText)` (lines 47-98): try `addTaskPattern`,
then `taskPattern`; on a match, clean the title and — unlike
`detectTaskOperation` — only report a create intent when the cleaned title
is non-empty, falling through to the delete-keyword check otherwise. -/
def detectTaskIntent (text : String) : TaskIntent :=
  match (addTaskIntentExec text).orElse (fun _ => taskColonIntentExec text) with
  | some cap =>
    let t := mkStrippedTitle cap
    if t = "" then intentDeleteCheck text
    else TaskIntent.createIntent (capitalizeFirst t) text
  | none => intentDeleteCheck text

/-! ## The chat request lifecycle (chatApi.ts and api.ts)

`chatApi.sendMessage` has exactly one suspension point: the `await` of
`api.post` (chatApi.ts line 40), which runs `api.request` (api.ts lines
5-55) and suspends at `fetch`.  A run of `sendMessage` is therefore split
into a synchronous prefix and a settlement step.  The mutable world visible
to these functions is:

* every `AbortController` created so far, with its aborted flag
  (`controllers`, indexed by creation order);
* the module-level `currentAbortController` of chatApi.ts line 15
  (`chatCurrent`, an index into `controllers`);
* every `fetch` call started so far, with the controller whose signal was
  attached to it and whether it has settled (`fetches`).

Two facts of the source are load-bearing here:

* `api.post` is declared as `post(endpoint, data)` (api.ts line 71); the
  third argument `{ signal: currentAbortController.signal }` passed at
  chatApi.ts line 40 is not a parameter of `post` and is dropped, so the
  chat-level controller is never attached to any fetch.
* `api.request` creates its own controller for its 30-second timeout and
  attaches that controller's signal to the fetch (api.ts lines 15-24);
  when that fetch aborts, `api.request` catches the `AbortError` and
  re-throws a plain `Error` (api.ts lines 44-47).

The `setTimeout` timers of chatApi.ts line 36 and api.ts line 16 are
modelled by leaving the corresponding controllers abortable through
`abortCtrl`; the traces used by the claims are executions in which no
timer has fired. -/

/-- One started `fetch`: the controller whose signal is attached to it, and
whether it has settled. -/
structure FetchRec where
  signal : Nat
  settled : Bool
deriving DecidableEq, Repr

/-- The mutable world of chatApi.ts / api.ts. -/
structure LifecycleState where
  controllers : List Bool
  chatCurrent : Option Nat
  fetches : List FetchRec
deriving DecidableEq, Repr

/-- The initial world: no controllers, no current request, no fetches. -/
def initialLifecycle : LifecycleState :=
  { controllers := [], chatCurrent := none, fetches := [] }

/-- `controller.abort()`. -/
def abortCtrl (st : LifecycleState) (i : Nat) : LifecycleState :=
  { st with controllers := st.controllers.set i true }

/-- `new AbortController()`: returns the new state and the controller id. -/
def newCtrl (st : LifecycleState) : LifecycleState × Nat :=
  ({ st with controllers := st.controllers ++ [false] }, st.controllers.length)

/-- Is controller `i` aborted? -/
def ctrlAborted (st : LifecycleState) (i : Nat) : Bool :=
  st.controllers.getD i false

/-- Handle on a request that is suspended at its network call. -/
structure PendingChat where
  chatCtrl : Nat
  apiCtrl : Nat
  fetch : Nat
deriving DecidableEq, Repr

/-- `ChatResponse.status` (chatApi.ts lines 8-12). -/
inductive ChatStatus where
  | success
  | fallback
  | error
deriving DecidableEq, Repr

/-- `ChatResponse` as returned by `sendMessage`; the `data` payload is not
inspected by any caller modelled here and is elided. -/
structure ChatResponse where
  status : ChatStatus
  message : String
deriving DecidableEq, Repr

/-- The fallback text of chatApi.ts line 54 and ChatComponent.tsx line 594. -/
def processedFallbackMsg : String :=
  "I processed your request and here\x27s the response from the AI assistant."

/-- Synchronous prefix of `chatApi.sendMessage(message)` (chatApi.ts lines
18-42): abort any existing controller, validate the message, create the new
chat-level controller, then call `api.post`, whose `api.request` creates its
own controller and starts the fetch with that controller's signal.  Returns
either the synchronously produced response (empty message) or the handle of
the request now suspended at its network call. -/
def sendMessagePrefix (st : LifecycleState) (message : String) :
    LifecycleState × (ChatResponse ⊕ PendingChat) :=
  let st :=
    match st.chatCurrent with
    | some i => abortCtrl st i
    | none => st
  if jsTrim message = "" then
    (st, Sum.inl { status := ChatStatus.error, message := "Message cannot be empty" })
  else
    let (st, c) := newCtrl st
    let st := { st with chatCurrent := some c }
    let (st, r) := newCtrl st
    let fid := st.fetches.length
    let st := { st with fetches := st.fetches ++ [{ signal := r, settled := false }] }
    (st, Sum.inr { chatCtrl := c, apiCtrl := r, fetch := fid })

/-- What the backend does with a request that is allowed to complete. -/
inductive ServerAction where
  | ok (status : ChatStatus) (message : String)
  | okMalformed
  | http401
  | httpFail
  | networkError
deriving DecidableEq, Repr

/-- What `await api.post(...)` produces for the suspended request once the
server acts: a resolved value or a rejection. -/
inductive PostResult where
  | value (v : Option (ChatStatus × String))
  | malformed
  | thrown (name : String) (isFetchTypeError : Bool)
deriving DecidableEq, Repr

/-- Settlement of `api.request` + `api.post` (api.ts lines 27-106) for a
suspended request: if the controller attached to the fetch was aborted, the
fetch rejects with an `AbortError`, which `api.request` converts into a
plain `Error` (lines 44-47); a 401 resolves to `null` (lines 33-37); a
non-2xx status makes `api.post` throw (lines 79-84); a transport error is a
`TypeError` from `fetch`. -/
def apiPostSettle (st : LifecycleState) (p : PendingChat) (server : ServerAction) :
    PostResult :=
  if ctrlAborted st p.apiCtrl then
    PostResult.thrown "Error" false
  else
    match server with
    | ServerAction.ok status message => PostResult.value (some (status, message))
    | ServerAction.okMalformed => PostResult.malformed
    | ServerAction.http401 => PostResult.value none
    | ServerAction.httpFail => PostResult.thrown "Error" false
    | ServerAction.networkError => PostResult.thrown "TypeError" true

/-- Continuation of `chatApi.sendMessage` after its network call settles
(chatApi.ts lines 44-116): every path clears `currentAbortController`; a
resolved object with `status` and `message` is normalised (empty message
replaced by the fallback text); `null` becomes the authentication fallback;
an `AbortError` becomes the took-too-long error; a fetch `TypeError`
and any other rejection become the two connection errors. -/
def sendMessageSettle (st : LifecycleState) (p : PendingChat) (server : ServerAction) :
    LifecycleState × ChatResponse :=
  let res := apiPostSettle st p server
  let st := { st with
    chatCurrent := none
    fetches := st.fetches.set p.fetch { signal := p.apiCtrl, settled := true } }
  match res with
  | PostResult.value (some (status, message)) =>
    (st, { status := status
           message := if message = "" then processedFallbackMsg else message })
  | PostResult.malformed =>
    (st, { status := ChatStatus.error
           message := "Received unexpected response format from the server." })
  | PostResult.value none =>
    (st, { status := ChatStatus.fallback
           message := "Authentication required. Please log in again." })
  | PostResult.thrown name isFetchTypeError =>
    if name = "AbortError" then
      (st, { status := ChatStatus.error
             message := "The request took too long to complete. Please try again." })
    else if isFetchTypeError then
      (st, { status := ChatStatus.error
             message := "Unable to connect to the chat service. Please ensure the backend server is running." })
    else
      (st, { status := ChatStatus.error
             message := "Unable to connect to the chat service. Please check your connection and try again." })

/-- Number of requests currently in flight: fetches that have been started,
have not settled, and whose attached controller is not aborted. -/
def liveFetches (st : LifecycleState) : Nat :=
  (st.fetches.filter (fun f => !f.settled && !(st.controllers.getD f.signal true))).length

/-! ## `handleSendMessage`, chat path (ChatComponent.tsx lines 374-643)

For an input that is not a task operation, `handleSendMessage` appends the
user message, awaits `chatApi.sendMessage`, and appends an assistant message
built from the response (lines 588-627); when `detectTaskIntent` reports a
create intent with a title, it additionally calls `createTask` afterwards
(line 613) — that call is returned as data here, since it starts a further
network operation of its own. -/

/-- Start of `handleSendMessage(input)` up to the suspension inside
`chatApi.sendMessage`: empty input returns immediately (line 377); the
user message is appended (line 389); a task-operation input dispatches to
the task helpers instead of the chat API (lines 399-586), which is modelled
separately by `deleteTaskRun`, `toggleTaskRun` and `updateTaskRun`. -/
def handleSendStart (st : LifecycleState) (transcript : List ChatMsg) (input : String) :
    LifecycleState × List ChatMsg × Option PendingChat :=
  if jsTrim input = "" then (st, transcript, none)
  else
    let transcript := transcript ++ [{ sender := Sender.user, text := input }]
    if detectTaskOperation input = TaskOp.unknown then
      match sendMessagePrefix st input with
      | (st, Sum.inl _) => (st, transcript, none)
      | (st, Sum.inr p) => (st, transcript, some p)
    else
      (st, transcript, none)

/-- Completion of the chat path of `handleSendMessage` for the request `p`
once the server acts (lines 589-627): the response text (never empty, line
594) is appended as an assistant message in both branches; a create intent
detected in the response text additionally requests `createTask(title,
description)`, returned as data. -/
def handleSendFinish (st : LifecycleState) (transcript : List ChatMsg)
    (p : PendingChat) (server : ServerAction) :
    LifecycleState × List ChatMsg × Option (String × String) :=
  let (st, resp) := sendMessageSettle st p server
  let safeText := if resp.message = "" then processedFallbackMsg else resp.message
  let transcript := transcript ++ [{ sender := Sender.assistant, text := safeText }]
  match detectTaskIntent safeText with
  | TaskIntent.createIntent title description => (st, transcript, some (title, description))
  | _ => (st, transcript, none)

/-! ## The task-store helpers (ChatComponent.tsx lines 264-372 and 468-523)

Each helper awaits a single store call through `lib/api.ts`; the store's
behaviour at that call is an explicit parameter.  `api.delete` resolves to
`{ success: true }` on a 2xx status (api.ts line 159), resolves to `null`
after a 401 (line 148), and throws otherwise; `api.patch` / `api.put`
resolve to the parsed response body, resolve to `null` after a 401, and
throw on a non-2xx status. -/

/-- Behaviour of `api.delete` at the call in `deleteTask`. -/
inductive StoreDeleteResult where
  | ok
  | nullRes
  | throws (msg : String)
deriving DecidableEq, Repr

/-- Behaviour of `api.patch` / `api.put` at the call in
`toggleTaskCompletion` or the update branch. -/
inductive StoreTaskResult where
  | ok (task : Task)
  | nullRes
  | throws (msg : String)
deriving DecidableEq, Repr

/-- Outcome of one task helper: the component task list, the transcript,
and whether a store network call was issued. -/
structure OpResult where
  tasks : List Task
  msgs : List ChatMsg
  networkCalled : Bool
deriving DecidableEq, Repr

/-- `(err as Error).message || 'Unknown error'`. -/
def errText (m : String) : String :=
  if m = "" then "Unknown error" else m

/-- One assistant message. -/
def amsg (t : String) : ChatMsg :=
  { sender := Sender.assistant, text := t }

/-- `deleteTask(taskId)` (lines 264-316): resolve the reference (throwing
`Task with ID/index ... not found` when resolution fails, before any store
call); on a result that is truthy with `success !== false`, remove the task
and append a success message; the catch block appends the failure message;
a `null` result falls off the end of the `try` with no message. -/
def deleteTaskRun (taskId : String) (tasks : List Task) (msgs : List ChatMsg)
    (store : StoreDeleteResult) : OpResult :=
  match resolveTaskId taskId tasks with
  | none =>
    let failText := "\u2717 Failed to delete task: " ++
      errText ("Task with ID/index " ++ taskId ++ " not found")
    { tasks := tasks, msgs := msgs ++ [amsg failText], networkCalled := false }
  | some rid =>
    let taskTitle :=
      match tasks.find? (fun t => t.id = rid) with
      | some t => t.title
      | none => "task " ++ rid
    match store with
    | StoreDeleteResult.ok =>
      let okText := "\u2713 Task \"" ++ taskTitle ++ "\" has been deleted successfully!"
      { tasks := tasks.filter (fun t => !(t.id = rid : Bool)),
        msgs := msgs ++ [amsg okText], networkCalled := true }
    | StoreDeleteResult.nullRes =>
      { tasks := tasks, msgs := msgs, networkCalled := true }
    | StoreDeleteResult.throws m =>
      { tasks := tasks, msgs := msgs ++ [amsg ("\u2717 Failed to delete task: " ++ errText m)],
        networkCalled := true }

/-- `toggleTaskCompletion(taskId)` (lines 319-372): resolve the reference
(throwing before any store call on failure); on a truthy updated task,
replace it in the list and append the completed / marked-as-incomplete
message; the catch block appends the failure message; a `null` result
produces no message and no mutation. -/
def toggleTaskRun (taskId : String) (tasks : List Task) (msgs : List ChatMsg)
    (store : StoreTaskResult) : OpResult :=
  match resolveTaskId taskId tasks with
  | none =>
    let failText := "\u2717 Failed to update task: " ++
      errText ("Task with ID/index " ++ taskId ++ " not found")
    { tasks := tasks, msgs := msgs ++ [amsg failText], networkCalled := false }
  | some rid =>
    let taskTitle :=
      match tasks.find? (fun t => t.id = rid) with
      | some t => t.title
      | none => "task " ++ rid
    match store with
    | StoreTaskResult.ok updatedTask =>
      let status := if updatedTask.completed then "completed" else "marked as incomplete"
      let okText := "\u2713 Task \"" ++ taskTitle ++ "\" has been " ++ status ++ "!"
      { tasks := tasks.map (fun t => if t.id = rid then updatedTask else t),
        msgs := msgs ++ [amsg okText], networkCalled := true }
    | StoreTaskResult.nullRes =>
      { tasks := tasks, msgs := msgs, networkCalled := true }
    | StoreTaskResult.throws m =>
      { tasks := tasks, msgs := msgs ++ [amsg ("\u2717 Failed to update task: " ++ errText m)],
        networkCalled := true }

/-- The inline `update` branch of `handleSendMessage` (lines 468-523):
resolve the reference (throwing before any store call on failure); on a
truthy updated task, replace it in the list and append the updated message;
the catch block appends the failure message; a `null` result produces no
message and no mutation. -/
def updateTaskRun (taskId : String) (newTitle : String) (tasks : List Task)
    (msgs : List ChatMsg) (store : StoreTaskResult) : OpResult :=
  match resolveTaskId taskId tasks with
  | none =>
    let failText := "\u2717 Failed to update task: " ++
      errText ("Task with ID/index " ++ taskId ++ " not found")
    { tasks := tasks, msgs := msgs ++ [amsg failText], networkCalled := false }
  | some rid =>
    let oldTitle :=
      match tasks.find? (fun t => t.id = rid) with
      | some t => t.title
      | none => "task " ++ rid
    match store with
    | StoreTaskResult.ok updatedTask =>
      let okText := "\u2713 Task \"" ++ oldTitle ++ "\" has been updated to \"" ++
        newTitle ++ "\"!"
      { tasks := tasks.map (fun t => if t.id = rid then updatedTask else t),
        msgs := msgs ++ [amsg okText], networkCalled := true }
    | StoreTaskResult.nullRes =>
      { tasks := tasks, msgs := msgs, networkCalled := true }
    | StoreTaskResult.throws m =>
      { tasks := tasks, msgs := msgs ++ [amsg ("\u2717 Failed to update task: " ++ errText m)],
        networkCalled := true }

/-! ## Concrete fixtures used by the theorems -/

/-- Trace step 1: `handleSendMessage("hi")` runs up to its network call. -/
def traceA : LifecycleState × List ChatMsg × Option PendingChat :=
  handleSendStart initialLifecycle [] "hi"

/-- The handle of the first request: chat-level controller 0 was created by
`sendMessage`, controller 1 by `api.request`, and fetch 0 carries
controller 1's signal. -/
def pendingA : PendingChat :=
  { chatCtrl := 0, apiCtrl := 1, fetch := 0 }

/-- Trace step 2: `handleSendMessage("yo")` arrives while request A is still
suspended at its network call. -/
def traceB : LifecycleState × List ChatMsg × Option PendingChat :=
  handleSendStart traceA.1 traceA.2.1 "yo"

/-- Trace step 3: the server answers request A (the superseded one) and A's
continuation runs. -/
def traceFin : LifecycleState × List ChatMsg × Option (String × String) :=
  handleSendFinish traceB.1 traceB.2.1 pendingA (ServerAction.ok ChatStatus.success "Hello!")

/-- A UUID-shaped reference that begins with the digits `12` followed by a
non-digit. -/
def uuidDigitRef : String :=
  "12abcdef-1234-5678-9abc-def012345678"

/-- Twelve tasks with ids `id1` … `id12`. -/
def tasks12 : List Task :=
  (List.range 12).map (fun n => taskNo (n + 1))

/-! ## Sanity checks: concrete evaluations of the embedding -/

example : jsParseInt "2" = some 2 := by decide
example : jsParseInt "2f" = some 2 := by decide
example : jsParseInt "-3" = some (-3) := by decide
example : jsParseInt "0x10" = some 16 := by decide
example : jsParseInt "abc" = none := by decide
example : resolveTaskId "2" tasksABC = some "b" := by decide
example : resolveTaskId "0" tasksABC = none := by decide
example : resolveTaskId "4" tasksABC = none := by decide
example : isUuid "123e4567-e89b-12d3-a456-426614174000" = true := by decide
example : resolveTaskId "123e4567-e89b-12d3-a456-426614174000" [] =
    some "123e4567-e89b-12d3-a456-426614174000" := by decide
example : execCreate "add task to buy milk" = some "buy milk" := by decide
example : detectTaskOperation "add task to buy milk" = TaskOp.create "Buy milk" := by decide
example : detectTaskOperation "add task ." = TaskOp.create "" := by decide
example : detectTaskOperation "delete 2" = TaskOp.delete "2" "" := by decide
example : detectTaskOperation " delete 2" = TaskOp.unknown := by decide
example : detectTaskOperation "delete 2f" = TaskOp.delete "2f" "" := by decide
example : detectTaskOperation "update 1 to Buy groceries" =
    TaskOp.update "1" "Buy groceries" := by decide
example : detectTaskOperation "list all my tasks" = TaskOp.list := by decide
example : detectTaskOperation "summarize my tasks" = TaskOp.summary := by decide
example : detectTaskOperation "complete task 3" = TaskOp.complete "3" "" := by decide
example : detectTaskOperation "hello there" = TaskOp.unknown := by decide
example : detectTaskOperation "mark as complete 2" = TaskOp.complete "2" "" := by decide
example : detectTaskOperation "del task abc" = TaskOp.delete "abc" "" := by decide
example : detectTaskOperation "delete 2 the groceries" =
    TaskOp.delete "2" "the groceries" := by decide
example : detectTaskOperation "add a todo called dentist. it hurts" =
    TaskOp.create "Dentist" := by decide
example : detectTaskOperation "add task today" = TaskOp.create "Day" := by decide
example : detectTaskIntent "Hello!" = TaskIntent.noIntent := by decide
example : detectTaskIntent "Sure, I will add a task to call mom." =
    TaskIntent.createIntent "Call mom" "Sure, I will add a task to call mom." := by decide
example : detectTaskIntent "I added a task to buy milk." =
    TaskIntent.deleteIntent "I added a task to buy milk." := by decide
example :
    (deleteTaskRun "2" tasksABC [] (StoreDeleteResult.throws "Request failed with status 500")).tasks
      = tasksABC := by decide
example : (deleteTaskRun "2" tasksABC [] StoreDeleteResult.ok).tasks.map Task.id =
    ["a", "c"] := by decide

/-! ## Shared helper lemmas -/

/-- `errText` is the identity on non-empty strings. -/
theorem errText_of_ne (m : String) (h : ¬ m = "") : errText m = m := by
  simp [errText, h]

/-- A decimal digit is not whitespace. -/
theorem digit_not_ws (c : Char) (h : c.isDigit = true) : c.isWhitespace = false := by
  by_contra hws
  simp only [Bool.not_eq_false] at hws
  have h4 : ((c = ' ' ∨ c = '\t') ∨ c = '\r') ∨ c = '\n' := by
    simpa [Char.isWhitespace] using hws
  rcases h4 with ((rfl | rfl) | rfl) | rfl <;> exact absurd h (by decide)

/-- A decimal digit differs from any given non-digit character. -/
theorem digit_ne (c d : Char) (h : c.isDigit = true) (hd : d.isDigit = false) : c ≠ d := by
  rintro rfl
  rw [h] at hd
  cases hd

/-- `hexRun` only returns suffixes whose elements come from the input. -/
theorem hexRun_mem (n : Nat) (cs r : List Char) (hr : hexRun n cs = some r) :
    ∀ c ∈ r, c ∈ cs := by
  induction n generalizing cs with
  | zero =>
    simp [hexRun] at hr
    subst hr
    exact fun c hc => hc
  | succ n ih =>
    cases cs with
    | nil => simp [hexRun] at hr
    | cons a as =>
      simp only [hexRun] at hr
      split at hr
      · intro c hc
        exact List.mem_cons_of_mem a (ih as hr c hc)
      · cases hr

/-- A list of decimal digits never passes the UUID shape check (the ninth
character would have to be a dash). -/
theorem digits_not_uuid (cs : List Char) (h : ∀ c ∈ cs, c.isDigit = true) :
    uuidCheck cs = false := by
  unfold uuidCheck
  cases h8 : hexRun 8 cs with
  | none => simp [h8]
  | some r =>
    have hall : ∀ c ∈ r, c.isDigit = true := fun c hc => h c (hexRun_mem 8 cs r h8 c hc)
    cases r with
    | nil => simp [h8, dashThen]
    | cons a as =>
      have ha : a ≠ '-' := digit_ne a '-' (hall a (List.mem_cons_self a as)) (by decide)
      simp [h8, dashThen, ha]

/-- A digit list never carries the `0x` prefix. -/
theorem digits_looksHex (cs : List Char) (h : ∀ c ∈ cs, c.isDigit = true) :
    looksHex cs = false := by
  cases cs with
  | nil => rfl
  | cons a as =>
    cases as with
    | nil => rfl
    | cons b bs =>
      have hb : b.isDigit = true := h b (by simp)
      have hx : b ≠ 'x' := digit_ne b 'x' hb (by decide)
      have hX : b ≠ 'X' := digit_ne b 'X' hb (by decide)
      simp [looksHex, hx, hX]

/-- `parseInt`'s magnitude on a pure digit list is its decimal value. -/
theorem digits_parseIntMag (cs : List Char) (hne : cs ≠ []) (h : ∀ c ∈ cs, c.isDigit = true) :
    jsParseIntMag cs = some (digitsVal cs) := by
  rw [jsParseIntMag, digits_looksHex cs h, if_neg (by simp)]
  rw [List.takeWhile_eq_self_iff.mpr h]
  simp [hne]

/-- `parseInt` on a pure digit string is its decimal value. -/
theorem digits_parseInt (cs : List Char) (hne : cs ≠ []) (h : ∀ c ∈ cs, c.isDigit = true) :
    jsParseInt (String.mk cs) = some ((digitsVal cs : Nat) : Int) := by
  cases cs with
  | nil => exact absurd rfl hne
  | cons a as =>
    have ha : a.isDigit = true := h a (by simp)
    have hws : a.isWhitespace = false := digit_not_ws a ha
    have hm : a ≠ '-' := digit_ne a '-' ha (by decide)
    have hp : a ≠ '+' := digit_ne a '+' ha (by decide)
    rw [jsParseInt]
    have hl : (String.mk (a :: as)).toList = a :: as := rfl
    rw [hl, List.dropWhile_cons, hws]
    simp only [if_false, Bool.false_eq_true]
    rw [jsParseIntSigned, if_neg hm, if_neg hp, digits_parseIntMag (a :: as) (by simp) h]
    rfl

/-- `parseInt`'s magnitude on digits followed by a non-digit stops at the
first non-digit. -/
theorem digits_prefix_parseIntMag (ds : List Char) (c : Char) (rest : List Char)
    (hne : ds ≠ []) (h : ∀ d ∈ ds, d.isDigit = true) (hc : c.isDigit = false)
    (hpos : 1 ≤ digitsVal ds) :
    jsParseIntMag (ds ++ c :: rest) = some (digitsVal ds) := by
  have hlh : looksHex (ds ++ c :: rest) = false := by
    cases ds with
    | nil => exact absurd rfl hne
    | cons a as =>
      cases as with
      | nil =>
        have ha0 : a ≠ '0' := by
          rintro rfl
          simp [digitsVal] at hpos
        simp [looksHex, ha0]
      | cons b bs =>
        have hb : b.isDigit = true := h b (by simp)
        have hx : b ≠ 'x' := digit_ne b 'x' hb (by decide)
        have hX : b ≠ 'X' := digit_ne b 'X' hb (by decide)
        simp [looksHex, hx, hX]
  rw [jsParseIntMag, hlh, if_neg (by simp)]
  rw [List.takeWhile_append_of_pos h]
  rw [List.takeWhile_cons, hc]
  simp [hne]

/-- `parseInt` on a digit prefix followed by a non-digit returns the value
of the prefix. -/
theorem digits_prefix_parseInt (ds : List Char) (c : Char) (rest : List Char)
    (hne : ds ≠ []) (h : ∀ d ∈ ds, d.isDigit = true) (hc : c.isDigit = false)
    (hpos : 1 ≤ digitsVal ds) :
    jsParseInt (String.mk (ds ++ c :: rest)) = some ((digitsVal ds : Nat) : Int) := by
  cases ds with
  | nil => exact absurd rfl hne
  | cons a as =>
    have ha : a.isDigit = true := h a (by simp)
    have hws : a.isWhitespace = false := digit_not_ws a ha
    have hm : a ≠ '-' := digit_ne a '-' ha (by decide)
    have hp : a ≠ '+' := digit_ne a '+' ha (by decide)
    rw [jsParseInt]
    have hl : (String.mk ((a :: as) ++ c :: rest)).toList = a :: (as ++ c :: rest) := rfl
    rw [hl, List.dropWhile_cons, hws]
    simp only [if_false, Bool.false_eq_true]
    have hmain := digits_prefix_parseIntMag (a :: as) c rest (by simp) h hc hpos
    rw [List.cons_append] at hmain
    rw [jsParseIntSigned, if_neg hm, if_neg hp, hmain]
    rfl

/-- `Char.ofNat` on a valid code point evaluates back to it. -/
theorem char_toNat_ofNat_valid (m : Nat) (h : m < 0xd800) :
    (Char.ofNat m).toNat = m := by
  rw [Char.ofNat, dif_pos (Or.inl (by exact_mod_cast h))]
  simp [Char.ofNatAux, Char.toNat, UInt32.toNat]

/-- `toUpperCase` of a single character is idempotent. -/
theorem toUpper_idem (c : Char) : c.toUpper.toUpper = c.toUpper := by
  unfold Char.toUpper
  by_cases h : c.toNat ≥ 97 ∧ c.toNat ≤ 122
  · rw [if_pos h]
    have hv : (Char.ofNat (c.toNat - 32)).toNat = c.toNat - 32 :=
      char_toNat_ofNat_valid _ (by omega)
    rw [if_neg (by rw [hv]; omega)]
  · rw [if_neg h, if_neg h]

/-- `capitalizeFirst` always yields a capitalized string. -/
theorem capitalizeFirst_capitalized (x : String) :
    isCapitalized (capitalizeFirst x) = true := by
  unfold capitalizeFirst
  cases hx : x.toList with
  | nil => rfl
  | cons c rest =>
    show isCapitalized (String.mk (c.toUpper :: rest)) = true
    unfold isCapitalized
    show (decide ((c.toUpper).toUpper = c.toUpper)) = true
    rw [toUpper_idem]
    simp

/-- Inversion of `detectTaskOperation`: a `create` result can only arise
from the create branch, with the title produced by `mkCreateTitle` from the
capture. -/
theorem detect_create_inv (s t : String) (h : detectTaskOperation s = TaskOp.create t) :
    ∃ cap, execCreate s = some cap ∧ t = mkCreateTitle cap := by
  simp only [detectTaskOperation] at h
  rcases h1 : (if (execCreate (jsTrim (jsToLower s))).isSome then execCreate s else none) with
    _ | cap
  · rw [h1] at h
    rcases h2 : (if (execDelete (jsTrim (jsToLower s))).isSome then execDelete s else none) with
      _ | p2
    · rw [h2] at h
      rcases h3 : (if (execComplete (jsTrim (jsToLower s))).isSome then execComplete s else none) with
        _ | p3
      · rw [h3] at h
        by_cases h4 : testList (jsTrim (jsToLower s))
        · rw [if_pos h4] at h
          cases h
        · rw [if_neg h4] at h
          by_cases h5 : testSummary (jsTrim (jsToLower s))
          · rw [if_pos h5] at h
            cases h
          · rw [if_neg h5] at h
            rcases h6 : (if (execUpdate (jsTrim (jsToLower s))).isSome then execUpdate s else none) with
              _ | p6
            · rw [h6] at h
              cases h
            · rw [h6] at h
              cases h
      · rw [h3] at h
        cases h
    · rw [h2] at h
      cases h
  · rw [h1] at h
    cases h
    split at h1
    · exact ⟨cap, h1, rfl⟩
    · cases h1

/-- Propagating a mapped extractor through the guarded scrutinee of one
classification branch. -/
theorem matchStep {α : Type} (t : Bool) (e : Option α) (f : α → TaskOp) (r : TaskOp) :
    (match (if t = true then e.map f else none) with
     | some x => x
     | none => r) =
    (match (if t = true then e else none) with
     | some a => f a
     | none => r) := by
  cases t <;> cases e <;> rfl

/-- The argument-free branches (list, summary) reduce to plain
conditionals. -/
theorem listStep (t : Bool) (v : TaskOp) (r : TaskOp) :
    (match (if t = true then some v else none) with
     | some x => x
     | none => r) = if t = true then v else r := by
  cases t <;> rfl

/-! ## Claim theorems -/

/-- Claim C1 (code bug evaluation): after `sendMessage("hi")` suspends at
its network call and `sendMessage("yo")` arrives, the first request's
chat-level abort controller has indeed been aborted before the second
request's controllers were created — but because `api.post` drops the
`{ signal }` argument, that controller is attached to no fetch, and two
un-aborted, unsettled network calls are in flight simultaneously. -/
theorem abort_not_attached_two_in_flight :
    traceA.2.2 = some pendingA ∧
    ctrlAborted traceB.1 pendingA.chatCtrl = true ∧
    ctrlAborted traceB.1 pendingA.apiCtrl = false ∧
    liveFetches traceB.1 = 2 := by
  decide

/-- Claim C2 (counterexample): the request of trace step 1 is superseded
(its chat-level controller was aborted when `sendMessage("yo")` started),
yet when its server response arrives its message `Hello!` is appended to
the transcript as a user-visible assistant message — the superseded outcome
is not silent. -/
theorem superseded_response_reaches_transcript :
    ctrlAborted traceB.1 pendingA.chatCtrl = true ∧
    traceFin.2.1 =
      [{ sender := Sender.user, text := "hi" }, { sender := Sender.user, text := "yo" },
       { sender := Sender.assistant, text := "Hello!" }] := by
  decide

/-- Claim C2 (amended): a superseded request is not silenced: since the
chat-level abort signal is attached to no fetch, a superseded request whose
network call completes successfully appends its response message to the
transcript exactly as a current request would; and no settlement of the api
layer ever surfaces an `AbortError` to `sendMessage` (so the took-too-long
branch cannot distinguish — or suppress — superseded outcomes). -/
theorem superseded_completion_appends_message
    (st : LifecycleState) (tr : List ChatMsg) (p : PendingChat) (m : String)
    (_hsup : ctrlAborted st p.chatCtrl = true)
    (hapi : ctrlAborted st p.apiCtrl = false) (hm : ¬ m = "") :
    (handleSendFinish st tr p (ServerAction.ok ChatStatus.success m)).2.1 =
      tr ++ [{ sender := Sender.assistant, text := m }] ∧
    ∀ (st' : LifecycleState) (p' : PendingChat) (server : ServerAction) (b : Bool),
      ¬ apiPostSettle st' p' server = PostResult.thrown "AbortError" b := by
  constructor
  · have h1 : apiPostSettle st p (ServerAction.ok ChatStatus.success m) =
        PostResult.value (some (ChatStatus.success, m)) := by
      simp [apiPostSettle, hapi]
    simp only [handleSendFinish, sendMessageSettle, h1, hm, ite_false, if_neg]
    cases hInt : detectTaskIntent m <;> simp [hInt, hm]
  · intro st' p' server b
    simp only [apiPostSettle]
    split
    · simp
    · cases server <;> simp

/-- Claim C2 (witness for the amended theorem): instantiated on the
concrete superseded request of the trace. -/
theorem superseded_completion_appends_message_witness :
    (handleSendFinish traceB.1 traceB.2.1 pendingA (ServerAction.ok ChatStatus.success "Hello!")).2.1 =
      traceB.2.1 ++ [{ sender := Sender.assistant, text := "Hello!" }] :=
  (superseded_completion_appends_message traceB.1 traceB.2.1 pendingA "Hello!"
    (by decide) (by decide) (by decide)).1

/-- Claim C4 (counterexample): the input `add task .` matches the create
pattern, its title is empty after truncation at the period and stripping,
and `detectTaskOperation` classifies it as `create` with an empty title —
not as `unknown` as the claim requires. -/
theorem create_empty_title_not_unknown :
    detectTaskOperation "add task ." = TaskOp.create "" ∧
    ¬ detectTaskOperation "add task ." = TaskOp.unknown := by
  decide

/-- Claim C6 (counterexample): `delete 2` against the list `[a, b, c]`
resolves to id `b` and the store call is issued, but when the store returns
the non-success `null` result (the unauthorized path of `api.delete`), the
local list is unchanged and **no** failure message is produced — the
failure is silent, contradicting the claim that a structured failure
message is produced for every non-success result. -/
theorem store_null_failure_silent :
    resolveTaskId "2" tasksABC = some "b" ∧
    (deleteTaskRun "2" tasksABC [] StoreDeleteResult.nullRes).networkCalled = true ∧
    (deleteTaskRun "2" tasksABC [] StoreDeleteResult.nullRes).tasks = tasksABC ∧
    (deleteTaskRun "2" tasksABC [] StoreDeleteResult.nullRes).msgs = [] := by
  decide

/-- Claim C6 (amended): for delete and update operations whose reference
resolves, the local task list is mutated only after the store confirms
success: when the store call throws, the list is unchanged and a
human-readable failure message is appended; when the store returns the
non-success `null` result, the list is likewise unchanged but no message is
produced. -/
theorem mutate_only_after_store_success
    (tid : String) (tasks : List Task) (msgs : List ChatMsg) (rid : String)
    (m : String) (nt : String)
    (h : resolveTaskId tid tasks = some rid) :
    ((deleteTaskRun tid tasks msgs (StoreDeleteResult.throws m)).tasks = tasks ∧
     (deleteTaskRun tid tasks msgs (StoreDeleteResult.throws m)).msgs =
       msgs ++ [amsg ("✗ Failed to delete task: " ++ errText m)] ∧
     (deleteTaskRun tid tasks msgs StoreDeleteResult.nullRes).tasks = tasks ∧
     (deleteTaskRun tid tasks msgs StoreDeleteResult.nullRes).msgs = msgs) ∧
    ((updateTaskRun tid nt tasks msgs (StoreTaskResult.throws m)).tasks = tasks ∧
     (updateTaskRun tid nt tasks msgs (StoreTaskResult.throws m)).msgs =
       msgs ++ [amsg ("✗ Failed to update task: " ++ errText m)] ∧
     (updateTaskRun tid nt tasks msgs StoreTaskResult.nullRes).tasks = tasks ∧
     (updateTaskRun tid nt tasks msgs StoreTaskResult.nullRes).msgs = msgs) := by
  simp [deleteTaskRun, updateTaskRun, h]

/-- Claim C6 (witness for the amended theorem): the specification scenario,
`delete 2` against `[a, b, c]` with a failing store. -/
theorem mutate_only_after_store_success_witness :
    (deleteTaskRun "2" tasksABC [] (StoreDeleteResult.throws "Request failed with status 500")).tasks
      = tasksABC :=
  (mutate_only_after_store_success "2" tasksABC [] "b" "Request failed with status 500" ""
    (by decide)).1.1

/-- Claim C7: for delete, complete and update operations whose user
reference does not resolve, no store network call is issued and an
immediate assistant failure message naming the unresolved reference is
appended, whatever the store would have done. -/
theorem unresolved_reference_immediate_failure
    (tid : String) (tasks : List Task) (msgs : List ChatMsg) (nt : String)
    (sd : StoreDeleteResult) (s1 s2 : StoreTaskResult)
    (h : resolveTaskId tid tasks = none) :
    ((deleteTaskRun tid tasks msgs sd).networkCalled = false ∧
     (deleteTaskRun tid tasks msgs sd).msgs =
       msgs ++ [amsg ("✗ Failed to delete task: " ++
         ("Task with ID/index " ++ tid ++ " not found"))] ∧
     (deleteTaskRun tid tasks msgs sd).tasks = tasks) ∧
    ((toggleTaskRun tid tasks msgs s1).networkCalled = false ∧
     (toggleTaskRun tid tasks msgs s1).msgs =
       msgs ++ [amsg ("✗ Failed to update task: " ++
         ("Task with ID/index " ++ tid ++ " not found"))] ∧
     (toggleTaskRun tid tasks msgs s1).tasks = tasks) ∧
    ((updateTaskRun tid nt tasks msgs s2).networkCalled = false ∧
     (updateTaskRun tid nt tasks msgs s2).msgs =
       msgs ++ [amsg ("✗ Failed to update task: " ++
         ("Task with ID/index " ++ tid ++ " not found"))] ∧
     (updateTaskRun tid nt tasks msgs s2).tasks = tasks) := by
  have hne : ¬ ("Task with ID/index " ++ tid ++ " not found") = "" := by
    intro hc
    have : ("Task with ID/index " ++ tid ++ " not found").data = [] :=
      congrArg String.data hc
    simp [String.data_append] at this
  simp [deleteTaskRun, toggleTaskRun, updateTaskRun, h, errText_of_ne _ hne]

/-- Claim C7 (witness): the unresolvable reference `abc` against `[a,b,c]`. -/
theorem unresolved_reference_immediate_failure_witness :
    (deleteTaskRun "abc" tasksABC [] StoreDeleteResult.ok).networkCalled = false ∧
    (deleteTaskRun "abc" tasksABC [] StoreDeleteResult.ok).msgs =
      [amsg ("✗ Failed to delete task: " ++
        ("Task with ID/index " ++ "abc" ++ " not found"))] :=
  ⟨(unresolved_reference_immediate_failure "abc" tasksABC [] "" StoreDeleteResult.ok
      StoreTaskResult.nullRes StoreTaskResult.nullRes (by decide)).1.1,
   (unresolved_reference_immediate_failure "abc" tasksABC [] "" StoreDeleteResult.ok
      StoreTaskResult.nullRes StoreTaskResult.nullRes (by decide)).1.2.1⟩

/-- Claim C8: a reference that matches the UUID token shape is returned
directly by `resolveTaskId`, for every task list — the list is never
consulted. -/
theorem uuid_reference_returned_directly (s : String) (tasks : List Task)
    (h : isUuid s = true) : resolveTaskId s tasks = some s := by
  simp [resolveTaskId, h]

/-- Claim C8 (witness): a concrete UUID against the empty list. -/
theorem uuid_reference_returned_directly_witness :
    resolveTaskId "123e4567-e89b-12d3-a456-426614174000" [] =
      some "123e4567-e89b-12d3-a456-426614174000" :=
  uuid_reference_returned_directly "123e4567-e89b-12d3-a456-426614174000" [] (by decide)

/-- Claim C9: intent classification is not invariant under leading
whitespace: `delete 2` classifies as a delete of reference `2`, while
` delete 2` (one leading space) classifies as `unknown`, because the
pattern is tested against the lowercased trimmed input but executed
against the original input with a start-of-string anchor. -/
theorem classification_not_whitespace_invariant :
    detectTaskOperation "delete 2" = TaskOp.delete "2" "" ∧
    detectTaskOperation " delete 2" = TaskOp.unknown ∧
    jsTrim " delete 2" = "delete 2" := by
  decide

/-- Claim C10 (counterexample): `12abcdef-1234-5678-9abc-def012345678`
begins with the digits `12` followed by a non-digit, and the task list has
12 tasks (long enough for position 12), yet resolution returns the
reference itself via the UUID branch, not the id of the task at position
12. -/
theorem digit_prefix_uuid_shape_overrides :
    (uuidDigitRef.toList.take 2).all Char.isDigit = true ∧
    tasks12.length = 12 ∧
    resolveTaskId uuidDigitRef tasks12 = some uuidDigitRef ∧
    ¬ resolveTaskId uuidDigitRef tasks12 = (tasks12.get? 11).map Task.id := by
  decide

/-- Claim C3: for a reference given as a digit string of value `p`,
resolution returns the id at 0-based index `p - 1` exactly when
`1 ≤ p ≤ length`, and `none` otherwise (so `0` and positions beyond the
list length resolve to `none`); a negative reference `-digits` always
resolves to `none`, regardless of list contents. -/
theorem positional_resolution_iff :
    (∀ (s : String) (tasks : List Task),
      s.toList ≠ [] → (∀ c ∈ s.toList, c.isDigit = true) →
      resolveTaskId s tasks =
        if 1 ≤ digitsVal s.toList ∧ digitsVal s.toList ≤ tasks.length
        then (tasks.get? (digitsVal s.toList - 1)).map Task.id
        else none) ∧
    (∀ (ds : List Char) (tasks : List Task),
      ds ≠ [] → (∀ c ∈ ds, c.isDigit = true) →
      resolveTaskId (String.mk ('-' :: ds)) tasks = none) := by
  constructor
  · intro s tasks hne h
    have hu : isUuid s = false := digits_not_uuid s.toList h
    have hp : jsParseInt s = some ((digitsVal s.toList : Nat) : Int) := by
      have hmk : String.mk s.toList = s := rfl
      rw [← hmk]
      exact digits_parseInt s.toList hne h
    simp only [resolveTaskId, hu, Bool.false_eq_true, if_false, hp]
    by_cases h1 : 1 ≤ digitsVal s.toList ∧ digitsVal s.toList ≤ tasks.length
    · rw [if_pos h1, if_pos (by exact_mod_cast Nat.lt_of_lt_of_le Nat.zero_lt_one h1.1)]
      simp
    · rw [if_neg h1]
      by_cases h0 : 1 ≤ digitsVal s.toList
      · have hgt : tasks.length < digitsVal s.toList := by omega
        rw [if_pos (by exact_mod_cast Nat.lt_of_lt_of_le Nat.zero_lt_one h0)]
        rw [Int.toNat_natCast, List.get?_eq_none.mpr (by omega)]
        rfl
      · rw [if_neg (by exact_mod_cast (by omega : ¬ (0:Nat) < digitsVal s.toList))]
  · intro ds tasks hne h
    have hu : isUuid (String.mk ('-' :: ds)) = false := by
      have h8 : hexRun 8 ('-' :: ds) = none := by
        show hexRun (7 + 1) ('-' :: ds) = none
        rw [hexRun, if_neg (by decide : ¬ isHexDigitCI '-' = true)]
      unfold isUuid uuidCheck
      show (match ((((((((hexRun 8 ('-' :: ds)).bind dashThen).bind (hexRun 4)).bind
          dashThen).bind (hexRun 4)).bind dashThen).bind (hexRun 4)).bind dashThen).bind
          (hexRun 12) with
        | some [] => true
        | _ => false) = false
      rw [h8]
      rfl
    have hmag := digits_parseIntMag ds hne h
    have hp : jsParseInt (String.mk ('-' :: ds)) = some (-(digitsVal ds : Int)) := by
      rw [jsParseInt]
      have hl : (String.mk ('-' :: ds)).toList = '-' :: ds := rfl
      rw [hl, List.dropWhile_cons]
      rw [if_neg (by decide : ¬ Char.isWhitespace '-' = true)]
      have hstep : jsParseIntSigned ('-' :: ds) =
          (jsParseIntMag ds).map (fun n => -(n : Int)) := by
        rw [jsParseIntSigned.eq_def]
        simp
      rw [hstep, hmag]
      rfl
    simp only [resolveTaskId, hu, Bool.false_eq_true, if_false, hp]
    rw [if_neg (by omega)]

/-- Claim C3 (witness): `2` against `[a, b, c]` resolves to `b`; `-3`
resolves to nothing. -/
theorem positional_resolution_iff_witness :
    resolveTaskId "2" tasksABC = some "b" ∧ resolveTaskId "-3" tasksABC = none := by
  constructor
  · exact (positional_resolution_iff.1 "2" tasksABC (by decide) (by decide)).trans (by decide)
  · exact positional_resolution_iff.2 ['3'] tasksABC (by decide) (by decide)

/-- Claim C4 (amended): every input classified as `create` carries a title
that is capitalized whenever it is non-empty; but an input whose title is
empty after truncation and stripping is still classified as `create` with
an empty title (`add task .`), not as `unknown` — the emptiness check of
`detectTaskIntent` is absent from `detectTaskOperation`. -/
theorem create_title_capitalized_or_empty :
    (∀ (s t : String), detectTaskOperation s = TaskOp.create t → ¬ t = "" →
      isCapitalized t = true) ∧
    detectTaskOperation "add task ." = TaskOp.create "" := by
  constructor
  · intro s t h _hne
    obtain ⟨cap, -, rfl⟩ := detect_create_inv s t h
    exact capitalizeFirst_capitalized (mkStrippedTitle cap)
  · decide

/-- Claim C4 (witness for the amended theorem): the title extracted from
`add task to buy milk` is capitalized. -/
theorem create_title_capitalized_or_empty_witness :
    isCapitalized "Buy milk" = true :=
  create_title_capitalized_or_empty.1 "add task to buy milk" "Buy milk" (by decide) (by decide)

/-- Claim C5: `detectTaskOperation` is exactly the ordered,
first-match-wins evaluation of the six pattern matchers in the order
create, delete, complete, list, summary, update, with `unknown` as the
default when no pattern matches; being a total function, it never fails. -/
theorem classification_ordered_first_match (u : String) :
    detectTaskOperation u = classifyOrdered u := by
  have expand : classifyOrdered u =
      (match matchCreate u with
       | some x => x
       | none =>
         match matchDelete u with
         | some x => x
         | none =>
           match matchComplete u with
           | some x => x
           | none =>
             match matchList u with
             | some x => x
             | none =>
               match matchSummary u with
               | some x => x
               | none =>
                 match matchUpdate u with
                 | some x => x
                 | none => TaskOp.unknown) := by
    unfold classifyOrdered intentMatchers
    simp only [List.findSome?_cons, List.findSome?_nil]
    cases matchCreate u <;> cases matchDelete u <;> cases matchComplete u <;>
      cases matchList u <;> cases matchSummary u <;> cases matchUpdate u <;> rfl
  rw [expand]
  simp only [matchCreate, matchDelete, matchComplete, matchList, matchSummary, matchUpdate]
  rw [matchStep, matchStep, matchStep, matchStep, listStep, listStep]
  rw [detectTaskOperation]
  cases (if (execCreate (jsTrim (jsToLower u))).isSome = true then execCreate u else none) <;>
    cases (if (execDelete (jsTrim (jsToLower u))).isSome = true then execDelete u else none) <;>
    cases (if (execComplete (jsTrim (jsToLower u))).isSome = true then execComplete u else none) <;>
    cases (if (execUpdate (jsTrim (jsToLower u))).isSome = true then execUpdate u else none) <;>
    rfl

/-- Claim C10 (amended): a reference made of a digit prefix of positive
value `p` followed by a non-digit character, which does not match the UUID
shape, resolves positionally: against any list of length at least `p` it
returns the id of the task at 0-based index `p - 1`. -/
theorem digit_prefix_positional_resolution
    (ds : List Char) (c : Char) (rest : List Char) (tasks : List Task)
    (hne : ds ≠ []) (hds : ∀ d ∈ ds, d.isDigit = true) (hc : c.isDigit = false)
    (hu : isUuid (String.mk (ds ++ c :: rest)) = false)
    (hpos : 1 ≤ digitsVal ds) (hlen : digitsVal ds ≤ tasks.length) :
    ∃ t, tasks.get? (digitsVal ds - 1) = some t ∧
      resolveTaskId (String.mk (ds ++ c :: rest)) tasks = some t.id := by
  have hp := digits_prefix_parseInt ds c rest hne hds hc hpos
  have hlt : digitsVal ds - 1 < tasks.length := by omega
  obtain ⟨t, ht⟩ : ∃ t, tasks.get? (digitsVal ds - 1) = some t := by
    rw [List.get?_eq_get hlt]
    exact ⟨_, rfl⟩
  refine ⟨t, ht, ?_⟩
  simp only [resolveTaskId, hu, Bool.false_eq_true, if_false, hp]
  rw [if_pos (by exact_mod_cast Nat.lt_of_lt_of_le Nat.zero_lt_one hpos)]
  rw [Int.toNat_natCast, ht]
  rfl

/-- Claim C10 (witness for the amended theorem): `2f` against `[a, b, c]`
resolves to the id of the second task. -/
theorem digit_prefix_positional_resolution_witness :
    resolveTaskId "2f" tasksABC = some "b" := by
  obtain ⟨t, ht, hr⟩ := digit_prefix_positional_resolution ['2'] 'f' [] tasksABC
    (by decide) (by decide) (by decide) (by decide) (by decide) (by decide)
  have h2 : t = { taskNo 2 with id := "b" } := by
    have hx : tasksABC.get? (digitsVal ['2'] - 1) = some { taskNo 2 with id := "b" } := by
      decide
    rw [hx] at ht
    exact (Option.some.inj ht).symm
  exact hr.trans (by rw [h2])

/-! ## End of theorem section -/

end TodoChat
